import Mathlib

/-
  Verification of the DeviceFeatures repository (a browser feature-demonstration
  page: `devices-demo/js/scripts.js` plus a passthrough service worker).

  The JavaScript source is shallowly embedded: the host environment (presence of
  browser capabilities, permission states, constructor outcomes) is a `Host`
  record, each handler function becomes a Lean function from `Host` to a
  `HandlerResult` describing what it rendered, which DOM controls it created,
  which permission queries it issued (in order), whether it invoked a capability
  constructor, and which promise rejections escaped uncaught.  Button-driven
  lifecycles (sensor Start/Stop, idle detection) are embedded as explicit state
  machines whose events are user clicks and platform callbacks.
-/

set_option maxHeartbeats 1000000

namespace DeviceFeatures

/-- Tri-state outcome of a `navigator.permissions.query` call. -/
inductive PermState
  | granted
  | denied
  | prompt
  deriving DecidableEq, Repr

/-- The permission names queried by the sensor handlers in `scripts.js`. -/
inductive PermName
  | accelerometer
  | gyroscope
  | magnetometer
  | ambientLightSensor
  deriving DecidableEq, Repr

/-- Addition of JavaScript numbers (modelled as rationals), computed on raw
    numerators and denominators so that it evaluates by kernel reduction. -/
def jsAdd (a b : ℚ) : ℚ := mkRat (a.num * b.den + b.num * a.den) (a.den * b.den)

/-- Subtraction of JavaScript numbers (modelled as rationals). -/
def jsSub (a b : ℚ) : ℚ := mkRat (a.num * b.den - b.num * a.den) (a.den * b.den)

/-- Multiplication of JavaScript numbers (modelled as rationals). -/
def jsMul (a b : ℚ) : ℚ := mkRat (a.num * b.num) (a.den * b.den)

/-- Division of JavaScript numbers (modelled as rationals). -/
def jsDiv (a b : ℚ) : ℚ :=
  if 0 ≤ b.num then mkRat (a.num * b.den) (a.den * b.num.natAbs)
  else mkRat (-(a.num * b.den)) (a.den * b.num.natAbs)

/-- Floor of a rational, computed on its raw numerator and denominator so that
    it evaluates by kernel reduction. -/
def ratFloor (q : ℚ) : ℤ := Int.fdiv q.num (q.den : ℤ)

/-- JavaScript `Number.prototype.toFixed(0)`: the integer nearest to the
    value, ties resolved to the larger integer. -/
def jsToFixed0 (q : ℚ) : ℤ := ratFloor (jsAdd q (mkRat 1 2))

/-- Render a natural number below 100 as two decimal digits. -/
def twoDigits (n : ℕ) : String :=
  if n < 10 then "0" ++ toString n else toString n

/-- `toFixed(2)` for a non-negative rational. -/
def jsToFixed2Abs (q : ℚ) : String :=
  let n : ℕ := (ratFloor (jsAdd (jsMul q 100) (mkRat 1 2))).toNat
  toString (n / 100) ++ "." ++ twoDigits (n % 100)

/-- JavaScript `Number.prototype.toFixed(2)`: sign handled first, then the
    non-negative magnitude is rounded to hundredths. -/
def jsToFixed2 (q : ℚ) : String :=
  if q < 0 then "-" ++ jsToFixed2Abs (-q) else jsToFixed2Abs q

/-- Pad a digit string on the left with zeros to the given width. -/
def padLeftZeros (width : ℕ) (s : String) : String :=
  if s.length < width then String.mk (List.replicate (width - s.length) '0') ++ s
  else s

/-- `toFixed(15)` for a non-negative rational. -/
def jsToFixed15Abs (q : ℚ) : String :=
  let n : ℕ := (ratFloor (jsAdd (jsMul q 1000000000000000) (mkRat 1 2))).toNat
  toString (n / 1000000000000000) ++ "." ++
    padLeftZeros 15 (toString (n % 1000000000000000))

/-- JavaScript `Number.prototype.toFixed(15)`, used by the orientation
    handlers' reading listeners. -/
def jsToFixed15 (q : ℚ) : String :=
  if q < 0 then "-" ++ jsToFixed15Abs (-q) else jsToFixed15Abs q

/-- Default JavaScript number-to-string coercion, specialised to the rationals
    used in this embedding (integral values print without a fraction part). -/
def jsNumToString (q : ℚ) : String :=
  if q.den = 1 then toString q.num else toString q

/-- Does the first character list start with the second? -/
def startsWithL : List Char → List Char → Bool
  | [], _ => true
  | _ :: _, [] => false
  | a :: as, b :: bs => a == b && startsWithL as bs

/-- Does `needle` occur (contiguously) inside the character list? -/
def occursInL (needle : List Char) : List Char → Bool
  | [] => startsWithL needle []
  | b :: bs => startsWithL needle (b :: bs) || occursInL needle bs

/-- Substring test on strings, used to state "the rendered output contains". -/
def hasSubstr (hay needle : String) : Bool :=
  occursInL needle.data hay.data

/-- Drop every `<...>` markup tag from a character list, keeping text nodes:
    the flag records whether we are currently inside a tag. -/
def stripChars : Bool → List Char → List Char
  | _, [] => []
  | _, '<' :: cs => stripChars true cs
  | true, '>' :: cs => stripChars false cs
  | true, _ :: cs => stripChars true cs
  | false, c :: cs => c :: stripChars false cs

/-- The text content of a markup string (what the user reads). -/
def textContent (s : String) : String :=
  ⟨stripChars false s.data⟩

/-- A snapshot of the `BatteryManager` object consumed by
    `handleBatteryStatusAPI` (charging flag, level in `[0,1]`, times in
    seconds). -/
structure BatterySnapshot where
  charging : Bool
  level : ℚ
  chargingTime : ℚ
  dischargingTime : ℚ
  deriving DecidableEq, Repr

/-- `writeBatteryInfo` from `handleBatteryStatusAPI` (scripts.js:69-82): the
    markup assigned to `output.innerHTML`, with the source template text
    reproduced character for character. -/
def writeBatteryInfo (battery : BatterySnapshot) : String :=
  let batteryCharging := if battery.charging then "Yes" else "No"
  let batteryLevel := toString (jsToFixed0 (jsMul battery.level 100)) ++ "%"
  let chargingTime := jsNumToString battery.chargingTime ++ " seconds"
  let dischargingTime := jsNumToString battery.dischargingTime ++ " seconds"
  "\n            <div>Bettery charging: <strong>" ++ batteryCharging ++
    "</strong></div>\n            <div>Bettery level: <strong>" ++ batteryLevel ++
    "</strong></div>\n            <div>Charging time: <strong>" ++ chargingTime ++
    "</strong></div>\n            <div>Discharging time: <strong>" ++ dischargingTime ++
    "</strong></div>\n          "

/-- The `navigator.connection` snapshot destructured by `writeNetworkInfo`;
    falsy fields are `none` (the source replaces them by the string
    "unknown"). -/
structure ConnectionInfo where
  connType : Option String
  effectiveType : Option String
  downlink : Option String
  downlinkMax : Option String
  deriving DecidableEq, Repr

/-- `writeNetworkInfo` from `handleNetworkInformation` (scripts.js:127-141). -/
def writeNetworkInfo (c : ConnectionInfo) : String :=
  "\n        <div>Current network type: <strong>" ++ c.connType.getD "unknown" ++
    "</strong></div>\n        <div>Cellular connection type: <strong>" ++
    c.effectiveType.getD "unknown" ++
    "</strong></div>\n        <div>Estimated bandwidth: <strong>" ++
    c.downlink.getD "unknown" ++
    "</strong> Mbps</div>\n        <div>Maximum downlink: <strong>" ++
    c.downlinkMax.getD "unknown" ++ "</strong> Mbps</div>\n      "

/-- The browser host environment a handler invocation observes: which
    capability names are present on the host objects, how each permission
    query resolves, and whether each capability constructor / acquisition
    succeeds or throws (with the thrown error rendered as a string). -/
structure Host where
  getBatteryPresent : Bool
  battery : BatterySnapshot
  connectionPresent : Bool
  connection : ConnectionInfo
  fullscreenElementPresent : Bool
  exitFullscreenPresent : Bool
  fullscreenEnabled : Bool
  orientationPresent : Bool
  vibratePresent : Bool
  setAppBadgePresent : Bool
  setClientBadgePresent : Bool
  visibilityApiPresent : Bool
  idleDetectorPresent : Bool
  wakeLockPresent : Bool
  wakeLockRequest : Except String Unit
  geolocationPresent : Bool
  permissionsPresent : Bool
  permission : PermName → PermState
  accelerometerPresent : Bool
  accelerometerConstruct : Except String Unit
  linearAccelerationPresent : Bool
  linearAccelerationConstruct : Except String Unit
  gyroscopePresent : Bool
  gyroscopeConstruct : Except String Unit
  gravitySensorPresent : Bool
  gravitySensorConstruct : Except String Unit
  magnetometerPresent : Bool
  magnetometerConstruct : Except String Unit
  ambientLightSensorPresent : Bool
  ambientLightSensorConstruct : Except String Unit
  absoluteOrientationPresent : Bool
  absoluteOrientationConstruct : Except String Unit
  relativeOrientationPresent : Bool
  relativeOrientationConstruct : Except String Unit

/-- A DOM control a handler may create inside the output region. -/
inductive Control
  | button (label : String) (disabled : Bool)
  | selectMenu (optionCount : ℕ)
  | messageDiv
  deriving DecidableEq, Repr

/-- What one handler invocation did: the text/markup it assigned to the shared
    output region, the text in its message `div`, the controls it created (with
    their disabled state when the invocation finished), the events it
    subscribed to, the permission queries it awaited in order, whether it
    invoked a capability constructor, whether a live handle resulted, whether
    its Start control ended up enabled, and the promise rejections that escaped
    it uncaught. -/
structure HandlerResult where
  outputContent : String := ""
  messageContent : String := ""
  controls : List Control := []
  listenerEvents : List String := []
  permissionQueries : List PermName := []
  constructorInvoked : Bool := false
  handleConstructed : Bool := false
  startEnabled : Bool := false
  uncaught : List String := []
  deriving DecidableEq, Repr

/-- `handleBatteryStatusAPI` (scripts.js:58-114). -/
def handleBatteryStatusAPI (h : Host) : HandlerResult :=
  if h.getBatteryPresent then
    { outputContent := writeBatteryInfo h.battery,
      listenerEvents :=
        ["chargingchange", "levelchange", "chargingtimechange", "dischargingtimechange"] }
  else
    { outputContent := "Battery API not supported on this device." }

/-- `handleNetworkInformation` (scripts.js:121-153). -/
def handleNetworkInformation (h : Host) : HandlerResult :=
  if h.connectionPresent then
    { outputContent := writeNetworkInfo h.connection, listenerEvents := ["change"] }
  else
    { outputContent := "Network information not available on this device." }

/-- `handleFullscreenAPI` (scripts.js:161-207). -/
def handleFullscreenAPI (h : Host) : HandlerResult :=
  if h.fullscreenElementPresent && h.exitFullscreenPresent && h.fullscreenEnabled then
    { controls := [Control.button "Toggle Fullscreen" false, Control.messageDiv],
      messageContent := "Click on the button above" }
  else
    { outputContent := "Fullscreen not available or enabled on this device." }

/-- `handleScreenOrientationAPI` (scripts.js:215-280): when the orientation
    object is present it first runs the fullscreen handler, then appends its
    own three lock/unlock buttons and a message div. -/
def handleScreenOrientationAPI (h : Host) : HandlerResult :=
  if h.orientationPresent then
    let fs := handleFullscreenAPI h
    { fs with
      controls := fs.controls ++
        [Control.button "Lock Portrait" false, Control.button "Lock Landscape" false,
          Control.button "Unlock" false, Control.messageDiv] }
  else
    { outputContent := "Screen orientation is not available on this device." }

/-- `handleVibrationAPI` (scripts.js:288-324). -/
def handleVibrationAPI (h : Host) : HandlerResult :=
  if h.vibratePresent then
    { controls := [Control.button "Single Vibration" false,
        Control.button "Multiple Vibration" false] }
  else
    { outputContent := "Vibration is not supported on this device." }

/-- `handleBadgingAPI` (scripts.js:332-380). -/
def handleBadgingAPI (h : Host) : HandlerResult :=
  if h.setAppBadgePresent || h.setClientBadgePresent then
    { controls := [Control.button "Set App Badge" false,
        Control.button "Clear App Badge" false, Control.messageDiv] }
  else
    { outputContent := "Badge API not available on this device." }

/-- The markup `handlePageVisibility` assigns to the output region
    unconditionally on entry (scripts.js:390-393). -/
def pageVisibilityGreeting : String :=
  "\n    Page visibility set.<br>\n    Please, don\x27t leave me!\n  "

/-- `handlePageVisibility` (scripts.js:387-435): performs no capability
    presence check at all — it renders its greeting and registers the
    `visibilitychange` listener regardless of the host. -/
def handlePageVisibility (_h : Host) : HandlerResult :=
  { outputContent := pageVisibilityGreeting, listenerEvents := ["visibilitychange"] }

/-- `handleIdleDetectionAPI` (scripts.js:443-545). -/
def handleIdleDetectionAPI (h : Host) : HandlerResult :=
  if h.idleDetectorPresent then
    { controls := [Control.button "Request Permission" false,
        Control.button "Start Listening" false, Control.messageDiv,
        Control.button "Clock" false] }
  else
    { outputContent := "IdleDetector not supported on this device." }

/-- `handleScreenWakeLockAPI` (scripts.js:552-597): on presence it calls
    `navigator.wakeLock.request('screen')` and renders only inside the
    resolution callback; the promise has no rejection handler, so a platform
    error escapes the handler uncaught and nothing is rendered. -/
def handleScreenWakeLockAPI (h : Host) : HandlerResult :=
  if h.wakeLockPresent then
    match h.wakeLockRequest with
    | Except.ok _ =>
      { outputContent := "\n          <div>Wake Lock is active!</div>\n        ",
        controls := [Control.button "Release screen" false],
        handleConstructed := true }
    | Except.error e => { uncaught := [e] }
  else
    { outputContent := "Screen Wake Lock API not supported on this device." }

/-- `handleGeolocationAPI` (scripts.js:604-689). -/
def handleGeolocationAPI (h : Host) : HandlerResult :=
  if h.geolocationPresent then
    { controls := [Control.button "Current Position" false,
        Control.button "Watch Position" false, Control.messageDiv] }
  else
    { outputContent := "Geolocation API not available on this device." }

/-- `handlePermissionsAPI` (scripts.js:696-761): a select menu with the
    "- Select -" placeholder plus 26 permission names, and a message div. -/
def handlePermissionsAPI (h : Host) : HandlerResult :=
  if h.permissionsPresent then
    { controls := [Control.selectMenu 27, Control.messageDiv],
      messageContent := "Select a permission above." }
  else
    { outputContent := "Permission API not available on this device." }

/-- `handleAccelerometer` (scripts.js:768-896). -/
def handleAccelerometer (h : Host) : HandlerResult :=
  if !h.accelerometerPresent then
    { outputContent := "Accelerometer not available on this device." }
  else if !h.permissionsPresent then
    { outputContent := "Permission API not available on this device." }
  else if h.permission PermName.accelerometer ≠ PermState.granted then
    { outputContent := "You are not autorized to use the accelerometer sensor.",
      permissionQueries := [PermName.accelerometer] }
  else
    match h.accelerometerConstruct with
    | Except.ok _ =>
      { permissionQueries := [PermName.accelerometer],
        controls := [Control.button "Start" false, Control.button "Stop" true,
          Control.messageDiv],
        listenerEvents := ["error", "reading"],
        constructorInvoked := true, handleConstructed := true, startEnabled := true }
    | Except.error e =>
      { permissionQueries := [PermName.accelerometer],
        controls := [Control.button "Start" true, Control.button "Stop" true,
          Control.messageDiv],
        messageContent := "Accelerometer error: " ++ e,
        constructorInvoked := true }

/-- `handleLinearAccelerationSensor` (scripts.js:904-1032). -/
def handleLinearAccelerationSensor (h : Host) : HandlerResult :=
  if !h.linearAccelerationPresent then
    { outputContent := "LinearAccelerationSensor not available on this device." }
  else if !h.permissionsPresent then
    { outputContent := "Permission API not available on this device." }
  else if h.permission PermName.accelerometer ≠ PermState.granted then
    { outputContent := "You are not autorized to use the accelerometer sensor.",
      permissionQueries := [PermName.accelerometer] }
  else
    match h.linearAccelerationConstruct with
    | Except.ok _ =>
      { permissionQueries := [PermName.accelerometer],
        controls := [Control.button "Start" false, Control.button "Stop" true,
          Control.messageDiv],
        listenerEvents := ["error", "reading"],
        constructorInvoked := true, handleConstructed := true, startEnabled := true }
    | Except.error e =>
      { permissionQueries := [PermName.accelerometer],
        controls := [Control.button "Start" true, Control.button "Stop" true,
          Control.messageDiv],
        messageContent := "LinearAccelerationSensor error: " ++ e,
        constructorInvoked := true }

/-- `handleGyroscope` (scripts.js:1039-1167). -/
def handleGyroscope (h : Host) : HandlerResult :=
  if !h.gyroscopePresent then
    { outputContent := "Gyroscope not available on this device." }
  else if !h.permissionsPresent then
    { outputContent := "Permission API not available on this device." }
  else if h.permission PermName.gyroscope ≠ PermState.granted then
    { outputContent := "You are not autorized to use the gyroscope sensor.",
      permissionQueries := [PermName.gyroscope] }
  else
    match h.gyroscopeConstruct with
    | Except.ok _ =>
      { permissionQueries := [PermName.gyroscope],
        controls := [Control.button "Start" false, Control.button "Stop" true,
          Control.messageDiv],
        listenerEvents := ["error", "reading"],
        constructorInvoked := true, handleConstructed := true, startEnabled := true }
    | Except.error e =>
      { permissionQueries := [PermName.gyroscope],
        controls := [Control.button "Start" true, Control.button "Stop" true,
          Control.messageDiv],
        messageContent := "Gyroscope error: " ++ e,
        constructorInvoked := true }

/-- `handleGravitySensor` (scripts.js:1174-1300): gated on the accelerometer
    permission. -/
def handleGravitySensor (h : Host) : HandlerResult :=
  if !h.gravitySensorPresent then
    { outputContent := "GravitySensor not available on this device." }
  else if !h.permissionsPresent then
    { outputContent := "Permission API not available on this device." }
  else if h.permission PermName.accelerometer ≠ PermState.granted then
    { outputContent := "You are not autorized to use the accelerometer sensor.",
      permissionQueries := [PermName.accelerometer] }
  else
    match h.gravitySensorConstruct with
    | Except.ok _ =>
      { permissionQueries := [PermName.accelerometer],
        controls := [Control.button "Start" false, Control.button "Stop" true,
          Control.messageDiv],
        listenerEvents := ["error", "reading"],
        constructorInvoked := true, handleConstructed := true, startEnabled := true }
    | Except.error e =>
      { permissionQueries := [PermName.accelerometer],
        controls := [Control.button "Start" true, Control.button "Stop" true,
          Control.messageDiv],
        messageContent := "GravitySensor error: " ++ e,
        constructorInvoked := true }

/-- `handleMagnetometer` (scripts.js:1308-1436). -/
def handleMagnetometer (h : Host) : HandlerResult :=
  if !h.magnetometerPresent then
    { outputContent := "Magnetometer not available on this device." }
  else if !h.permissionsPresent then
    { outputContent := "Permission API not available on this device." }
  else if h.permission PermName.magnetometer ≠ PermState.granted then
    { outputContent := "You are not autorized to use the magnetometer sensor.",
      permissionQueries := [PermName.magnetometer] }
  else
    match h.magnetometerConstruct with
    | Except.ok _ =>
      { permissionQueries := [PermName.magnetometer],
        controls := [Control.button "Start" false, Control.button "Stop" true,
          Control.messageDiv],
        listenerEvents := ["error", "reading"],
        constructorInvoked := true, handleConstructed := true, startEnabled := true }
    | Except.error e =>
      { permissionQueries := [PermName.magnetometer],
        controls := [Control.button "Start" true, Control.button "Stop" true,
          Control.messageDiv],
        messageContent := "Magnetometer error: " ++ e,
        constructorInvoked := true }

/-- `handleAmbientLightSensor` (scripts.js:1444-1561). -/
def handleAmbientLightSensor (h : Host) : HandlerResult :=
  if !h.ambientLightSensorPresent then
    { outputContent := "AmbientLightSensor not available on this device." }
  else if !h.permissionsPresent then
    { outputContent := "Permission API not available on this device." }
  else if h.permission PermName.ambientLightSensor ≠ PermState.granted then
    { outputContent := "You are not autorized to use the ambient light sensor.",
      permissionQueries := [PermName.ambientLightSensor] }
  else
    match h.ambientLightSensorConstruct with
    | Except.ok _ =>
      { permissionQueries := [PermName.ambientLightSensor],
        controls := [Control.button "Start" false, Control.button "Stop" true,
          Control.messageDiv],
        listenerEvents := ["error", "reading"],
        constructorInvoked := true, handleConstructed := true, startEnabled := true }
    | Except.error e =>
      { permissionQueries := [PermName.ambientLightSensor],
        controls := [Control.button "Start" true, Control.button "Stop" true,
          Control.messageDiv],
        messageContent := "AmbientLightSensor error: " ++ e,
        constructorInvoked := true }

/-- `handleAbsoluteOrientationSensor` (scripts.js:1567-1712): the three
    permission queries are awaited one after the other, in the order
    accelerometer, gyroscope, magnetometer. -/
def handleAbsoluteOrientationSensor (h : Host) : HandlerResult :=
  if !h.absoluteOrientationPresent then
    { outputContent := "AbsoluteOrientationSensor not available on this device." }
  else if !h.permissionsPresent then
    { outputContent := "Permission API not available on this device." }
  else if h.permission PermName.accelerometer ≠ PermState.granted then
    { outputContent := "You are not autorized to use the accelerometer sensor.",
      permissionQueries := [PermName.accelerometer] }
  else if h.permission PermName.gyroscope ≠ PermState.granted then
    { outputContent := "You are not autorized to use the gyroscope sensor.",
      permissionQueries := [PermName.accelerometer, PermName.gyroscope] }
  else if h.permission PermName.magnetometer ≠ PermState.granted then
    { outputContent := "You are not autorized to use the magnetometer sensor.",
      permissionQueries :=
        [PermName.accelerometer, PermName.gyroscope, PermName.magnetometer] }
  else
    match h.absoluteOrientationConstruct with
    | Except.ok _ =>
      { permissionQueries :=
          [PermName.accelerometer, PermName.gyroscope, PermName.magnetometer],
        controls := [Control.button "Start" false, Control.button "Stop" true,
          Control.messageDiv],
        listenerEvents := ["error", "reading"],
        constructorInvoked := true, handleConstructed := true, startEnabled := true }
    | Except.error e =>
      { permissionQueries :=
          [PermName.accelerometer, PermName.gyroscope, PermName.magnetometer],
        controls := [Control.button "Start" true, Control.button "Stop" true,
          Control.messageDiv],
        messageContent := "AbsoluteOrientationSensor error: " ++ e,
        constructorInvoked := true }

/-- `handleRelativeOrientationSensor` (scripts.js:1718-1854): the two
    permission queries are awaited in the order accelerometer, gyroscope. -/
def handleRelativeOrientationSensor (h : Host) : HandlerResult :=
  if !h.relativeOrientationPresent then
    { outputContent := "RelativeOrientationSensor not available on this device." }
  else if !h.permissionsPresent then
    { outputContent := "Permission API not available on this device." }
  else if h.permission PermName.accelerometer ≠ PermState.granted then
    { outputContent := "You are not autorized to use the accelerometer sensor.",
      permissionQueries := [PermName.accelerometer] }
  else if h.permission PermName.gyroscope ≠ PermState.granted then
    { outputContent := "You are not autorized to use the gyroscope sensor.",
      permissionQueries := [PermName.accelerometer, PermName.gyroscope] }
  else
    match h.relativeOrientationConstruct with
    | Except.ok _ =>
      { permissionQueries := [PermName.accelerometer, PermName.gyroscope],
        controls := [Control.button "Start" false, Control.button "Stop" true,
          Control.messageDiv],
        listenerEvents := ["error", "reading"],
        constructorInvoked := true, handleConstructed := true, startEnabled := true }
    | Except.error e =>
      { permissionQueries := [PermName.accelerometer, PermName.gyroscope],
        controls := [Control.button "Start" true, Control.button "Stop" true,
          Control.messageDiv],
        messageContent := "RelativeOrientationSensor error: " ++ e,
        constructorInvoked := true }

/-- The feature tags handled by the feature-selector change listener
    (scripts.js:22-51). -/
inductive Feature
  | battery
  | networkInfo
  | fullscreen
  | screenOrientation
  | vibration
  | badging
  | pageVisibility
  | idleDetection
  | screenWakeLock
  | geolocation
  | permissions
  | accelerometer
  | linearAcceleration
  | gyroscope
  | gravity
  | magnetometer
  | ambientLight
  | absoluteOrientation
  | relativeOrientation
  deriving DecidableEq, Repr

/-- The `switch` of the feature-selector change listener: which handler a
    selected option value maps to (scripts.js:26-50); unrecognised values fall
    through with no handler. -/
def dispatchTag : String → Option Feature
  | "battery" => some Feature.battery
  | "network-info" => some Feature.networkInfo
  | "fullscreen" => some Feature.fullscreen
  | "screen-orientation" => some Feature.screenOrientation
  | "vibration" => some Feature.vibration
  | "badging" => some Feature.badging
  | "page-visibility" => some Feature.pageVisibility
  | "idle-detection" => some Feature.idleDetection
  | "screen-wake-lock" => some Feature.screenWakeLock
  | "geolocation" => some Feature.geolocation
  | "permissions" => some Feature.permissions
  | "accelerometer" => some Feature.accelerometer
  | "linear-acceleration" => some Feature.linearAcceleration
  | "gyroscope" => some Feature.gyroscope
  | "gravity" => some Feature.gravity
  | "magnetometer" => some Feature.magnetometer
  | "ambient-light" => some Feature.ambientLight
  | "absolute-orientation" => some Feature.absoluteOrientation
  | "relative-orientation" => some Feature.relativeOrientation
  | _ => none

/-- The option value of each feature in the selector. -/
def featureTag : Feature → String
  | Feature.battery => "battery"
  | Feature.networkInfo => "network-info"
  | Feature.fullscreen => "fullscreen"
  | Feature.screenOrientation => "screen-orientation"
  | Feature.vibration => "vibration"
  | Feature.badging => "badging"
  | Feature.pageVisibility => "page-visibility"
  | Feature.idleDetection => "idle-detection"
  | Feature.screenWakeLock => "screen-wake-lock"
  | Feature.geolocation => "geolocation"
  | Feature.permissions => "permissions"
  | Feature.accelerometer => "accelerometer"
  | Feature.linearAcceleration => "linear-acceleration"
  | Feature.gyroscope => "gyroscope"
  | Feature.gravity => "gravity"
  | Feature.magnetometer => "magnetometer"
  | Feature.ambientLight => "ambient-light"
  | Feature.absoluteOrientation => "absolute-orientation"
  | Feature.relativeOrientation => "relative-orientation"

/-- The list of recognised option values. -/
def recognizedTags : List String :=
  ["battery", "network-info", "fullscreen", "screen-orientation", "vibration",
    "badging", "page-visibility", "idle-detection", "screen-wake-lock",
    "geolocation", "permissions", "accelerometer", "linear-acceleration",
    "gyroscope", "gravity", "magnetometer", "ambient-light",
    "absolute-orientation", "relative-orientation"]

/-- Run the handler a feature tag selects. -/
def runFeature : Feature → Host → HandlerResult
  | Feature.battery => handleBatteryStatusAPI
  | Feature.networkInfo => handleNetworkInformation
  | Feature.fullscreen => handleFullscreenAPI
  | Feature.screenOrientation => handleScreenOrientationAPI
  | Feature.vibration => handleVibrationAPI
  | Feature.badging => handleBadgingAPI
  | Feature.pageVisibility => handlePageVisibility
  | Feature.idleDetection => handleIdleDetectionAPI
  | Feature.screenWakeLock => handleScreenWakeLockAPI
  | Feature.geolocation => handleGeolocationAPI
  | Feature.permissions => handlePermissionsAPI
  | Feature.accelerometer => handleAccelerometer
  | Feature.linearAcceleration => handleLinearAccelerationSensor
  | Feature.gyroscope => handleGyroscope
  | Feature.gravity => handleGravitySensor
  | Feature.magnetometer => handleMagnetometer
  | Feature.ambientLight => handleAmbientLightSensor
  | Feature.absoluteOrientation => handleAbsoluteOrientationSensor
  | Feature.relativeOrientation => handleRelativeOrientationSensor

/-- The synchronous DOM actions of the feature-selector change listener, in
    program order. -/
inductive DispatchAction
  | setOutputText (s : String)
  | invokeHandler (f : Feature)
  deriving DecidableEq, Repr

/-- The feature-selector change listener (scripts.js:22-51): it first assigns
    `output.innerText = ''`, then switches on the selected value. -/
def featureSelectorChange (tag : String) : List DispatchAction :=
  DispatchAction.setOutputText "" ::
    (match dispatchTag tag with
     | some f => [DispatchAction.invokeHandler f]
     | none => [])

/-- The handlers invoked by a dispatcher action trace. -/
def invokedHandlers (actions : List DispatchAction) : List Feature :=
  actions.filterMap fun a =>
    match a with
    | DispatchAction.invokeHandler f => some f
    | _ => none

/-- A network request, identified by its URL (the service worker forwards it
    opaquely). -/
abbrev Request := String

/-- The outcome of a network fetch: a response, or a network failure. -/
inductive FetchResult
  | response (body : String)
  | failure (err : String)
  deriving DecidableEq, Repr

/-- A lifecycle task the service worker can schedule. -/
inductive SWTask
  | claimClients
  deriving DecidableEq, Repr

/-- A lifecycle action performed by a service-worker event listener. -/
inductive SWLifecycleAction
  | skipWaiting
  | waitUntil (task : SWTask)
  deriving DecidableEq, Repr

/-- The `install` listener of the service worker (service-worker file, lines
    5-10): it only calls `self.skipWaiting()`. -/
def swInstallListener : List SWLifecycleAction := [SWLifecycleAction.skipWaiting]

/-- The `activate` listener of the service worker (lines 17-22): it only calls
    `event.waitUntil(clients.claim())`. -/
def swActivateListener : List SWLifecycleAction :=
  [SWLifecycleAction.waitUntil SWTask.claimClients]

/-- What the service worker's fetch listener did for one fetch event. -/
structure FetchHandlerOutcome where
  respondedWith : FetchResult
  requestsForwarded : List Request
  cacheActions : List String
  deriving DecidableEq, Repr

/-- The `fetch` listener of the service worker (lines 29-35): it responds with
    `fetch(event.request)` — the identical request forwarded to the network —
    and touches no cache. -/
def swOnFetch (network : Request → FetchResult) (req : Request) : FetchHandlerOutcome :=
  { respondedWith := network req, requestsForwarded := [req], cacheActions := [] }

/-- The idle-detection handler's UI state for its "Start Listening" button
    (scripts.js:481-527): the button's disabled flag, the number of started
    but not yet resolved `IdleDetector.start()` promises, and the total number
    of start invocations. -/
structure IdleUI where
  detectionDisabled : Bool
  pendingStarts : ℕ
  startCalls : ℕ
  deriving DecidableEq, Repr

/-- Events driving the idle-detection UI: a click on "Start Listening" and
    the asynchronous resolution of a pending `start()` promise. -/
inductive IdleEvent
  | clickDetection
  | startResolved
  deriving DecidableEq, Repr

/-- The idle-detection UI state right after the handler ran: the button is
    enabled (scripts.js:453-455). -/
def idleInit : IdleUI := { detectionDisabled := false, pendingStarts := 0, startCalls := 0 }

/-- One event of the idle-detection UI.  The click listener
    (scripts.js:481-527) constructs a fresh `IdleDetector` and invokes
    `start()`; the button is disabled only inside the `.then` callback, i.e.
    when the promise resolves, not synchronously in the click. -/
def idleStep : IdleEvent → IdleUI → IdleUI
  | IdleEvent.clickDetection, s =>
    if s.detectionDisabled then s
    else { s with startCalls := s.startCalls + 1, pendingStarts := s.pendingStarts + 1 }
  | IdleEvent.startResolved, s =>
    match s.pendingStarts with
    | 0 => s
    | n + 1 =>
      { detectionDisabled := true, pendingStarts := n, startCalls := s.startCalls }

/-- Run the idle-detection UI from its initial state through a list of
    events. -/
def idleRun (es : List IdleEvent) : IdleUI :=
  es.foldl (fun s e => idleStep e s) idleInit

/-- A JavaScript runtime error thrown inside a listener. -/
inductive JsError
  | referenceError (name : String)
  | typeError (msg : String)
  deriving DecidableEq, Repr

/-- The text of a JavaScript runtime error as the browser reports it. -/
def jsErrorText : JsError → String
  | JsError.referenceError n => "ReferenceError: " ++ n ++ " is not defined"
  | JsError.typeError m => "TypeError: " ++ m

/-- The identifiers declared at the top level of `scripts.js` (the two
    `const` bindings and the function declarations). -/
def scriptTopLevelIdents : List String :=
  ["featureSelector", "output", "handleBatteryStatusAPI", "handleNetworkInformation",
    "handleFullscreenAPI", "handleScreenOrientationAPI", "handleVibrationAPI",
    "handleBadgingAPI", "handlePageVisibility", "handleIdleDetectionAPI",
    "handleScreenWakeLockAPI", "handleGeolocationAPI", "handlePermissionsAPI",
    "handleAccelerometer", "handleLinearAccelerationSensor", "handleGyroscope",
    "handleGravitySensor", "handleMagnetometer", "handleAmbientLightSensor",
    "handleAbsoluteOrientationSensor", "handleRelativeOrientationSensor"]

/-- The identifiers in scope inside the ambient-light `reading` listener
    (scripts.js:1514-1518): the script's top level plus the handler's locals
    `buttonStart`, `buttonStop`, `message` and the sensor handle, which is
    bound to `ambientLight` (scripts.js:1485, 1497). -/
def ambientReadingScope : List String :=
  scriptTopLevelIdents ++
    ["ambientLightPermission", "buttonStart", "buttonStop", "message", "ambientLight"]

/-- The state the ambient-light `reading` listener closes over. -/
structure AmbientState where
  illuminance : ℚ
  messageContent : String
  deriving DecidableEq, Repr

/-- The ambient-light `reading` listener (scripts.js:1514-1518): its template
    renders `${sensor.illuminance}`; resolving the identifier `sensor` against
    the scope chain fails (no such binding exists anywhere in the script), so
    the listener throws a ReferenceError before assigning
    `message.innerHTML`. -/
def ambientLightReadingListener (st : AmbientState) : Except JsError AmbientState :=
  if ambientReadingScope.contains "sensor" then
    let rendered :=
      "\n        <div>Current light level: " ++ jsNumToString st.illuminance ++
        "</div>\n      "
    Except.ok { st with messageContent := rendered }
  else
    Except.error (JsError.referenceError "sensor")

/-- The state of the page-visibility handler's `visibilitychange` listener
    (scripts.js:387-435): `let leftTime;` starts undefined (`none`), the
    output region shows the greeting, and each hidden transition requests a
    notification. -/
structure VisState where
  leftTime : Option ℚ
  outputContent : String
  notificationsRequested : ℕ
  deriving DecidableEq, Repr

/-- The page-visibility listener state right after `handlePageVisibility`
    ran. -/
def visInit : VisState :=
  { leftTime := none, outputContent := pageVisibilityGreeting, notificationsRequested := 0 }

/-- The markup rendered on a visible transition (scripts.js:429-432). -/
def welcomeBackMarkup (timeAway : ℚ) : String :=
  "\n        Welcome back!!!<br>\n        You were away for " ++
    toString (jsToFixed0 timeAway) ++ " seconds.\n      "

/-- The `visibilitychange` listener (scripts.js:405-434): on a hidden
    transition it stores the current time in `leftTime` and requests a
    notification; otherwise it computes
    `(now.getTime() - leftTime.getTime()) / 1000` — which throws a TypeError
    when `leftTime` is still undefined — and renders the welcome-back
    markup. -/
def visibilitychangeListener (visibilityState : String) (now : ℚ) (st : VisState) :
    Except JsError VisState :=
  if visibilityState = "hidden" then
    Except.ok
      { st with
        leftTime := some now
        notificationsRequested := st.notificationsRequested + 1 }
  else
    match st.leftTime with
    | none => Except.error (JsError.typeError "Cannot read properties of undefined")
    | some t =>
      Except.ok { st with outputContent := welcomeBackMarkup (jsDiv (jsSub now t) 1000) }

/-- Specification-side helper: the first permission in the declared check
    order that did not resolve to granted. -/
def firstNotGranted (h : Host) : List PermName → Option PermName
  | [] => none
  | p :: ps => if h.permission p = PermState.granted then firstNotGranted h ps else some p

/-- Specification-side helper: the permission queries a strictly sequential
    checker issues — every declared permission up to and including the first
    one that is not granted. -/
def queriesIssued (h : Host) : List PermName → List PermName
  | [] => []
  | p :: ps => if h.permission p = PermState.granted then p :: queriesIssued h ps else [p]

/-- The declared permission check order of the absolute orientation handler. -/
def absoluteOrientationPermissionOrder : List PermName :=
  [PermName.accelerometer, PermName.gyroscope, PermName.magnetometer]

/-- The declared permission check order of the relative orientation handler. -/
def relativeOrientationPermissionOrder : List PermName :=
  [PermName.accelerometer, PermName.gyroscope]

/-- The denial message each permission's failed query renders. -/
def sensorDenialMsg : PermName → String
  | PermName.accelerometer => "You are not autorized to use the accelerometer sensor."
  | PermName.gyroscope => "You are not autorized to use the gyroscope sensor."
  | PermName.magnetometer => "You are not autorized to use the magnetometer sensor."
  | PermName.ambientLightSensor => "You are not autorized to use the ambient light sensor."

/-- The capability name a permission denial message must mention. -/
def permCapabilityName : PermName → String
  | PermName.accelerometer => "accelerometer"
  | PermName.gyroscope => "gyroscope"
  | PermName.magnetometer => "magnetometer"
  | PermName.ambientLightSensor => "ambient light"

/-- The permission-gated sensor handlers. -/
inductive GatedSensor
  | accel
  | linAccel
  | gyro
  | gravity
  | magnet
  | ambient
  | absOrient
  | relOrient
  deriving DecidableEq, Repr

/-- Run a permission-gated sensor handler. -/
def runGatedSensor : GatedSensor → Host → HandlerResult
  | GatedSensor.accel => handleAccelerometer
  | GatedSensor.linAccel => handleLinearAccelerationSensor
  | GatedSensor.gyro => handleGyroscope
  | GatedSensor.gravity => handleGravitySensor
  | GatedSensor.magnet => handleMagnetometer
  | GatedSensor.ambient => handleAmbientLightSensor
  | GatedSensor.absOrient => handleAbsoluteOrientationSensor
  | GatedSensor.relOrient => handleRelativeOrientationSensor

/-- The permissions each gated handler checks, in declared order. -/
def gatedSensorPerms : GatedSensor → List PermName
  | GatedSensor.accel => [PermName.accelerometer]
  | GatedSensor.linAccel => [PermName.accelerometer]
  | GatedSensor.gyro => [PermName.gyroscope]
  | GatedSensor.gravity => [PermName.accelerometer]
  | GatedSensor.magnet => [PermName.magnetometer]
  | GatedSensor.ambient => [PermName.ambientLightSensor]
  | GatedSensor.absOrient => absoluteOrientationPermissionOrder
  | GatedSensor.relOrient => relativeOrientationPermissionOrder

/-- The sensor-API presence flag each gated handler checks first. -/
def gatedSensorPresent : GatedSensor → Host → Bool
  | GatedSensor.accel, h => h.accelerometerPresent
  | GatedSensor.linAccel, h => h.linearAccelerationPresent
  | GatedSensor.gyro, h => h.gyroscopePresent
  | GatedSensor.gravity, h => h.gravitySensorPresent
  | GatedSensor.magnet, h => h.magnetometerPresent
  | GatedSensor.ambient, h => h.ambientLightSensorPresent
  | GatedSensor.absOrient, h => h.absoluteOrientationPresent
  | GatedSensor.relOrient, h => h.relativeOrientationPresent

/-- The constructor outcome each gated handler observes on the host. -/
def gatedSensorConstruct : GatedSensor → Host → Except String Unit
  | GatedSensor.accel, h => h.accelerometerConstruct
  | GatedSensor.linAccel, h => h.linearAccelerationConstruct
  | GatedSensor.gyro, h => h.gyroscopeConstruct
  | GatedSensor.gravity, h => h.gravitySensorConstruct
  | GatedSensor.magnet, h => h.magnetometerConstruct
  | GatedSensor.ambient, h => h.ambientLightSensorConstruct
  | GatedSensor.absOrient, h => h.absoluteOrientationConstruct
  | GatedSensor.relOrient, h => h.relativeOrientationConstruct

/-- The message label each sensor handler's catch block around construction
    renders (e.g. scripts.js:858-860, 994-996, 1129-1131, 1262-1264,
    1398-1400, 1523-1525, 1674-1676, 1816-1818). -/
def sensorConstructErrorLabel : GatedSensor → String
  | GatedSensor.accel => "Accelerometer error: "
  | GatedSensor.linAccel => "LinearAccelerationSensor error: "
  | GatedSensor.gyro => "Gyroscope error: "
  | GatedSensor.gravity => "GravitySensor error: "
  | GatedSensor.magnet => "Magnetometer error: "
  | GatedSensor.ambient => "AmbientLightSensor error: "
  | GatedSensor.absOrient => "AbsoluteOrientationSensor error: "
  | GatedSensor.relOrient => "RelativeOrientationSensor error: "

/-- The message label each sensor handler's `error`-event listener renders
    (e.g. scripts.js:830-834, 966-970, 1101-1105, 1234-1238, 1370-1374,
    1504-1508, 1647-1651, 1789-1793). -/
def sensorFailedLabel : GatedSensor → String
  | GatedSensor.accel => "Accelerometer failed: "
  | GatedSensor.linAccel => "LinearAccelerationSensor failed: "
  | GatedSensor.gyro => "Gyroscope failed: "
  | GatedSensor.gravity => "GravitySensor failed: "
  | GatedSensor.magnet => "Magnetometer failed: "
  | GatedSensor.ambient => "AmbientLightSensor failed: "
  | GatedSensor.absOrient => "AbsoluteOrientationSensor failed: "
  | GatedSensor.relOrient => "RelativeOrientationSensor failed: "

/-- A snapshot of the properties a sensor handle exposes when a `reading`
    event fires; each sensor's listener reads only the properties its kind
    provides (axes, quaternion, or illuminance). -/
structure SensorReading where
  x : ℚ
  y : ℚ
  z : ℚ
  quaternion : List ℚ
  illuminance : ℚ

/-- The markup rendered by the accelerometer `reading` listener
    (scripts.js:840-853). -/
def accReadingMarkup (x y z : ℚ) : String :=
  "\n        <div>Acceleration along the:</div>\n        <ul>\n          <li>X-axis is <b>" ++
    jsToFixed2 x ++
    "</b> m/s<sup>2</sup></li>\n          <li>Y-axis is <b>" ++ jsToFixed2 y ++
    "</b> m/s<sup>2</sup></li>\n          <li>Z-axis is <b>" ++ jsToFixed2 z ++
    "</b> m/s<sup>2</sup></li>\n        </ul>\n      "

/-- The markup rendered by the linear-acceleration `reading` listener
    (scripts.js:976-989). -/
def linearAccelerationReadingMarkup (x y z : ℚ) : String :=
  "\n        <div>Linear acceleration along the:</div>\n        <ul>\n          <li>X-axis is <b>" ++
    jsToFixed2 x ++
    "</b> m/s<sup>2</sup></li>\n          <li>Y-axis is <b>" ++ jsToFixed2 y ++
    "</b> m/s<sup>2</sup></li>\n          <li>Z-axis is <b>" ++ jsToFixed2 z ++
    "</b> m/s<sup>2</sup></li>\n        </ul>\n      "

/-- The markup rendered by the gyroscope `reading` listener
    (scripts.js:1111-1124). -/
def gyroscopeReadingMarkup (x y z : ℚ) : String :=
  "\n        <div>Angular velocity along the:</div>\n        <ul>\n          <li>X-axis is <b>" ++
    jsToFixed2 x ++
    "</b> rad/s</li>\n          <li>Y-axis is <b>" ++ jsToFixed2 y ++
    "</b> rad/s</li>\n          <li>Z-axis is <b>" ++ jsToFixed2 z ++
    "</b> rad/s</li>\n        </ul>\n      "

/-- The markup rendered by the gravity `reading` listener
    (scripts.js:1244-1257). -/
def gravityReadingMarkup (x y z : ℚ) : String :=
  "\n        <div>Gravity along the:</div>\n        <ul>\n          <li>X-axis is <b>" ++
    jsToFixed2 x ++
    "</b> m/s<sup>2</sup></li>\n          <li>Y-axis is <b>" ++ jsToFixed2 y ++
    "</b> m/s<sup>2</sup></li>\n          <li>Z-axis is <b>" ++ jsToFixed2 z ++
    "</b> m/s<sup>2</sup></li>\n        </ul>\n      "

/-- The markup rendered by the magnetometer `reading` listener
    (scripts.js:1380-1393). -/
def magnetometerReadingMarkup (x y z : ℚ) : String :=
  "\n        <div>Magnetic field along the:</div>\n        <ul>\n          <li>X-axis is <b>" ++
    jsToFixed2 x ++
    "</b></li>\n          <li>Y-axis is <b>" ++ jsToFixed2 y ++
    "</b></li>\n          <li>Z-axis is <b>" ++ jsToFixed2 z ++
    "</b></li>\n        </ul>\n      "

/-- The markup rendered by the orientation `reading` listeners
    (scripts.js:1657-1669 and 1799-1811), which differ only in their label. -/
def orientationReadingMarkup (label : String) (quaternion : List ℚ) : String :=
  let orientation :=
    quaternion.foldl (fun acc value => acc ++ "<li>" ++ jsToFixed15 value ++ "</li>") ""
  "\n        <div>" ++ label ++ ": </div>\n        <ul>\n          " ++ orientation ++
    "\n        </ul>\n      "

/-- What each sensor's `reading` listener renders into the message region for
    a reading snapshot — or the error it throws: the ambient-light listener
    references the unbound identifier `sensor` (scripts.js:1516) and fails
    with a ReferenceError whenever the scope chain lacks that name. -/
def sensorReadingRender : GatedSensor → SensorReading → Except JsError String
  | GatedSensor.accel, r => Except.ok (accReadingMarkup r.x r.y r.z)
  | GatedSensor.linAccel, r => Except.ok (linearAccelerationReadingMarkup r.x r.y r.z)
  | GatedSensor.gyro, r => Except.ok (gyroscopeReadingMarkup r.x r.y r.z)
  | GatedSensor.gravity, r => Except.ok (gravityReadingMarkup r.x r.y r.z)
  | GatedSensor.magnet, r => Except.ok (magnetometerReadingMarkup r.x r.y r.z)
  | GatedSensor.ambient, r =>
    if ambientReadingScope.contains "sensor" then
      Except.ok ("\n        <div>Current light level: " ++ jsNumToString r.illuminance ++
        "</div>\n      ")
    else Except.error (JsError.referenceError "sensor")
  | GatedSensor.absOrient, r =>
    Except.ok (orientationReadingMarkup "Absolute orientation" r.quaternion)
  | GatedSensor.relOrient, r =>
    Except.ok (orientationReadingMarkup "Relative orientation" r.quaternion)

/-- A sensor handler's button-driven UI state once the handle was constructed
    and listeners attached (the same shape in all eight handlers, e.g.
    scripts.js:794-895): button disabled flags, whether the sensor is running,
    how often the platform `start`/`stop` calls were issued, the message
    region, and any errors that escaped the handler uncaught. -/
structure SensorUI where
  startDisabled : Bool
  stopDisabled : Bool
  running : Bool
  startCalls : ℕ
  stopCalls : ℕ
  messageContent : String
  uncaught : List String
  deriving DecidableEq, Repr

/-- Events driving a sensor's UI state: user clicks (with the outcome of the
    platform call they trigger) and asynchronous sensor events. -/
inductive SensorEvent
  | clickStart (res : Except String Unit)
  | clickStop (res : Except String Unit)
  | errorEvent (e : String)
  | readingEvent (r : SensorReading)

/-- The UI state right after any sensor handler finished with a successfully
    constructed handle: Start enabled, Stop disabled, sensor not yet running
    (e.g. scripts.js:794-856). -/
def sensorUIInit : SensorUI :=
  { startDisabled := false, stopDisabled := true, running := false,
    startCalls := 0, stopCalls := 0, messageContent := "", uncaught := [] }

/-- One event of a sensor handler's UI.  A click on a disabled button fires no
    listener.  The Start click (e.g. scripts.js:863-877) invokes the platform
    `start()` inside try/catch and on success synchronously disables Start and
    enables Stop; the Stop click (e.g. scripts.js:880-895) is symmetric and
    appends "Sensor stopped!"; these two listeners are textually identical in
    all eight handlers.  The sensor `error` event renders that sensor's
    failure label and re-enables Start; the `reading` event re-renders the
    message region with that sensor's formatter — except the ambient-light
    listener, whose thrown ReferenceError escapes uncaught and leaves the
    message unchanged. -/
def sensorStep (s : GatedSensor) : SensorEvent → SensorUI → SensorUI
  | SensorEvent.clickStart res, st =>
    if st.startDisabled then st
    else
      match res with
      | Except.ok _ =>
        { st with
          running := true
          startDisabled := true
          stopDisabled := false
          startCalls := st.startCalls + 1 }
      | Except.error e =>
        { st with
          startCalls := st.startCalls + 1
          messageContent := "It was not possible to start the sensor: " ++ e }
  | SensorEvent.clickStop res, st =>
    if st.stopDisabled then st
    else
      match res with
      | Except.ok _ =>
        { st with
          running := false
          startDisabled := false
          stopDisabled := true
          stopCalls := st.stopCalls + 1
          messageContent := st.messageContent ++ "<div>Sensor stopped!</div>" }
      | Except.error e =>
        { st with
          stopCalls := st.stopCalls + 1
          messageContent := "It was not possible to stop the sensor: " ++ e }
  | SensorEvent.errorEvent e, st =>
    { st with
      running := false
      startDisabled := false
      stopDisabled := true
      messageContent := sensorFailedLabel s ++ e }
  | SensorEvent.readingEvent r, st =>
    match sensorReadingRender s r with
    | Except.ok m => { st with messageContent := m }
    | Except.error err => { st with uncaught := st.uncaught ++ [jsErrorText err] }

/-- Run a sensor's UI from its initial state through a list of events. -/
def sensorRun (s : GatedSensor) (es : List SensorEvent) : SensorUI :=
  es.foldl (fun st e => sensorStep s e st) sensorUIInit

/-- Each handler's fixed "not supported" message, rendered when its presence
    check fails; the page-visibility handler performs no presence check and
    has none. -/
def notSupportedMsg : Feature → Option String
  | Feature.battery => some "Battery API not supported on this device."
  | Feature.networkInfo => some "Network information not available on this device."
  | Feature.fullscreen => some "Fullscreen not available or enabled on this device."
  | Feature.screenOrientation => some "Screen orientation is not available on this device."
  | Feature.vibration => some "Vibration is not supported on this device."
  | Feature.badging => some "Badge API not available on this device."
  | Feature.pageVisibility => none
  | Feature.idleDetection => some "IdleDetector not supported on this device."
  | Feature.screenWakeLock => some "Screen Wake Lock API not supported on this device."
  | Feature.geolocation => some "Geolocation API not available on this device."
  | Feature.permissions => some "Permission API not available on this device."
  | Feature.accelerometer => some "Accelerometer not available on this device."
  | Feature.linearAcceleration => some "LinearAccelerationSensor not available on this device."
  | Feature.gyroscope => some "Gyroscope not available on this device."
  | Feature.gravity => some "GravitySensor not available on this device."
  | Feature.magnetometer => some "Magnetometer not available on this device."
  | Feature.ambientLight => some "AmbientLightSensor not available on this device."
  | Feature.absoluteOrientation => some "AbsoluteOrientationSensor not available on this device."
  | Feature.relativeOrientation => some "RelativeOrientationSensor not available on this device."

/-- The capability presence condition each handler checks on entry; the
    page-visibility handler checks nothing, so its "presence" is the
    visibility API flag it ignores. -/
def featurePresence : Feature → Host → Bool
  | Feature.battery, h => h.getBatteryPresent
  | Feature.networkInfo, h => h.connectionPresent
  | Feature.fullscreen, h =>
    h.fullscreenElementPresent && h.exitFullscreenPresent && h.fullscreenEnabled
  | Feature.screenOrientation, h => h.orientationPresent
  | Feature.vibration, h => h.vibratePresent
  | Feature.badging, h => h.setAppBadgePresent || h.setClientBadgePresent
  | Feature.pageVisibility, h => h.visibilityApiPresent
  | Feature.idleDetection, h => h.idleDetectorPresent
  | Feature.screenWakeLock, h => h.wakeLockPresent
  | Feature.geolocation, h => h.geolocationPresent
  | Feature.permissions, h => h.permissionsPresent
  | Feature.accelerometer, h => h.accelerometerPresent
  | Feature.linearAcceleration, h => h.linearAccelerationPresent
  | Feature.gyroscope, h => h.gyroscopePresent
  | Feature.gravity, h => h.gravitySensorPresent
  | Feature.magnetometer, h => h.magnetometerPresent
  | Feature.ambientLight, h => h.ambientLightSensorPresent
  | Feature.absoluteOrientation, h => h.absoluteOrientationPresent
  | Feature.relativeOrientation, h => h.relativeOrientationPresent

/-- The fixed "not supported" strings of all handlers that have one. -/
def notSupportedMessages : List String :=
  ["Battery API not supported on this device.",
    "Network information not available on this device.",
    "Fullscreen not available or enabled on this device.",
    "Screen orientation is not available on this device.",
    "Vibration is not supported on this device.",
    "Badge API not available on this device.",
    "IdleDetector not supported on this device.",
    "Screen Wake Lock API not supported on this device.",
    "Geolocation API not available on this device.",
    "Permission API not available on this device.",
    "Accelerometer not available on this device.",
    "LinearAccelerationSensor not available on this device.",
    "Gyroscope not available on this device.",
    "GravitySensor not available on this device.",
    "Magnetometer not available on this device.",
    "AmbientLightSensor not available on this device.",
    "AbsoluteOrientationSensor not available on this device.",
    "RelativeOrientationSensor not available on this device."]

/-- A host with every capability present, every permission granted, and every
    construction succeeding — the baseline the concrete test hosts below
    modify. -/
def grantedHost : Host :=
  { getBatteryPresent := true, battery := ⟨true, mkRat 4 5, 0, 0⟩,
    connectionPresent := true, connection := ⟨none, none, none, none⟩,
    fullscreenElementPresent := true, exitFullscreenPresent := true,
    fullscreenEnabled := true, orientationPresent := true, vibratePresent := true,
    setAppBadgePresent := true, setClientBadgePresent := false,
    visibilityApiPresent := true, idleDetectorPresent := true,
    wakeLockPresent := true, wakeLockRequest := Except.ok (),
    geolocationPresent := true, permissionsPresent := true,
    permission := fun _ => PermState.granted,
    accelerometerPresent := true, accelerometerConstruct := Except.ok (),
    linearAccelerationPresent := true, linearAccelerationConstruct := Except.ok (),
    gyroscopePresent := true, gyroscopeConstruct := Except.ok (),
    gravitySensorPresent := true, gravitySensorConstruct := Except.ok (),
    magnetometerPresent := true, magnetometerConstruct := Except.ok (),
    ambientLightSensorPresent := true, ambientLightSensorConstruct := Except.ok (),
    absoluteOrientationPresent := true, absoluteOrientationConstruct := Except.ok (),
    relativeOrientationPresent := true, relativeOrientationConstruct := Except.ok () }

/-- A host whose gyroscope permission query resolves to denied. -/
def gyroDeniedHost : Host :=
  { grantedHost with
    permission := fun p =>
      match p with
      | PermName.gyroscope => PermState.denied
      | _ => PermState.granted }

/-- A host whose accelerometer permission query resolves to denied. -/
def accelDeniedHost : Host :=
  { grantedHost with
    permission := fun p =>
      match p with
      | PermName.accelerometer => PermState.denied
      | _ => PermState.granted }

/-- A host without the vibration API. -/
def noVibrationHost : Host := { grantedHost with vibratePresent := false }

/-- A host without the page-visibility API. -/
def noVisibilityHost : Host := { grantedHost with visibilityApiPresent := false }

/-- A host whose wake-lock acquisition promise rejects. -/
def wakeLockFailHost : Host :=
  { grantedHost with
    wakeLockRequest := Except.error "NotAllowedError: Wake Lock permission request denied" }

/-- A host whose accelerometer constructor throws. -/
def accelConstructFailHost : Host :=
  { grantedHost with accelerometerConstruct := Except.error "SecurityError" }

/-- Claim C5: for a battery snapshot with `charging = true` and `level = 0.8`,
    the battery handler renders output whose text content contains the literal
    labels "Bettery charging: Yes" and "Bettery level: 80%", the level being
    multiplied by 100 and formatted with zero decimal places followed by "%",
    with the misspelled label preserved character for character. -/
theorem claim_C5_battery_render :
    hasSubstr (textContent (writeBatteryInfo ⟨true, mkRat 4 5, 0, 0⟩))
      "Bettery charging: Yes" = true
    ∧ hasSubstr (textContent (writeBatteryInfo ⟨true, mkRat 4 5, 0, 0⟩))
      "Bettery level: 80%" = true
    ∧ toString (jsToFixed0 (jsMul (mkRat 4 5) 100)) ++ "%" = "80%" := by
  refine ⟨?_, ?_, ?_⟩ <;> decide

/-- One step of any sensor's UI preserves the re-entrancy invariant: while
    the sensor is running, the Start control is disabled. -/
theorem sensorStep_invariant (s : GatedSensor) (e : SensorEvent) (st : SensorUI)
    (hs : st.running = true → st.startDisabled = true) :
    (sensorStep s e st).running = true → (sensorStep s e st).startDisabled = true := by
  cases e with
  | clickStart res =>
    cases hd : st.startDisabled with
    | true => simp [sensorStep, hd]
    | false =>
      cases res with
      | ok u => simp [sensorStep, hd]
      | error err =>
        simp only [sensorStep, hd, Bool.false_eq_true, if_false]
        intro hr
        have := hs hr
        simp [hd] at this
  | clickStop res =>
    cases hd : st.stopDisabled with
    | true => simp only [sensorStep, hd, if_true]; exact hs
    | false =>
      cases res with
      | ok u => simp [sensorStep, hd]
      | error err =>
        simp only [sensorStep, hd, Bool.false_eq_true, if_false]
        exact hs
  | errorEvent e2 => simp [sensorStep]
  | readingEvent r =>
    cases hr : sensorReadingRender s r with
    | ok m => simp only [sensorStep, hr]; exact hs
    | error err => simp only [sensorStep, hr]; exact hs

/-- The re-entrancy invariant holds after any event sequence applied from any
    state satisfying it, for any sensor. -/
theorem sensorFoldl_invariant (s : GatedSensor) :
    ∀ (es : List SensorEvent) (st : SensorUI),
      (st.running = true → st.startDisabled = true) →
      ((es.foldl (fun t e => sensorStep s e t) st).running = true →
        (es.foldl (fun t e => sensorStep s e t) st).startDisabled = true)
  | [], _, hs => hs
  | e :: es, st, hs =>
    sensorFoldl_invariant s es (sensorStep s e st) (sensorStep_invariant s e st hs)

/-- The re-entrancy invariant holds in every reachable UI state of every
    sensor handler. -/
theorem sensorRun_invariant (s : GatedSensor) (es : List SensorEvent) :
    (sensorRun s es).running = true → (sensorRun s es).startDisabled = true :=
  sensorFoldl_invariant s es sensorUIInit (by intro h; simp [sensorUIInit] at h)

/-- Claim C3 (amended): for every one of the eight sensor Start/Stop handlers
    the Start control is disabled synchronously within the successful Start
    click, so in every reachable UI state in which the sensor is running the
    Start control is disabled and a further Start click fires no listener and
    issues no start call; the idle-detection handler, by contrast, never
    disables its start control inside the click itself — it is disabled only
    when the asynchronous `start()` promise resolves. -/
theorem claim_C3_start_disabled (s : GatedSensor) (es : List SensorEvent)
    (res : Except String Unit) (st : IdleUI)
    (hrun : (sensorRun s es).running = true) :
    (sensorRun s es).startDisabled = true
    ∧ sensorStep s (SensorEvent.clickStart res) (sensorRun s es) = sensorRun s es
    ∧ (∀ t : SensorUI, t.startDisabled = false →
        (sensorStep s (SensorEvent.clickStart (Except.ok ())) t).startDisabled = true)
    ∧ (idleStep IdleEvent.clickDetection st).detectionDisabled = st.detectionDisabled := by
  have hd := sensorRun_invariant s es hrun
  refine ⟨hd, ?_, ?_, ?_⟩
  · simp [sensorStep, hd]
  · intro t ht
    simp [sensorStep, ht]
  · simp only [idleStep]
    split <;> rfl

/-- Witness for claim C3: on the relative-orientation sensor, after one
    successful Start click the sensor runs and Start is disabled, and a second
    Start click leaves the state untouched. -/
theorem claim_C3_start_disabled_witness :
    (sensorRun GatedSensor.relOrient [SensorEvent.clickStart (Except.ok ())]).running = true
    ∧ (sensorRun GatedSensor.relOrient
        [SensorEvent.clickStart (Except.ok ())]).startDisabled = true
    ∧ sensorStep GatedSensor.relOrient (SensorEvent.clickStart (Except.ok ()))
        (sensorRun GatedSensor.relOrient [SensorEvent.clickStart (Except.ok ())]) =
      sensorRun GatedSensor.relOrient [SensorEvent.clickStart (Except.ok ())] := by
  have H := claim_C3_start_disabled GatedSensor.relOrient
    [SensorEvent.clickStart (Except.ok ())] (Except.ok ()) idleInit (by decide)
  exact ⟨by decide, H.1, H.2.1⟩

/-- Claim C3 counterexample: on the idle-detection handler, two clicks on
    "Start Listening" before the asynchronous `start()` promise resolves issue
    two platform start invocations with no intervening stop (the handler
    exposes no stop control at all), because the button is disabled only at
    promise resolution, not immediately on a successful start. -/
theorem claim_C3_counterexample :
    (idleRun [IdleEvent.clickDetection, IdleEvent.clickDetection]).startCalls = 2
    ∧ (idleRun [IdleEvent.clickDetection]).detectionDisabled = false
    ∧ (idleRun [IdleEvent.clickDetection, IdleEvent.clickDetection,
        IdleEvent.startResolved]).detectionDisabled = true := by
  refine ⟨by decide, by decide, by decide⟩

/-- Claim C2 (amended): every one of the eight sensor handlers catches
    platform-thrown errors during handle construction and during start/stop
    locally (try/catch) and renders them as text in the message region, and no
    sensor handler invocation lets anything escape uncaught on any path; the
    screen-wake-lock handler, however, attaches no rejection handler to its
    acquisition promise, so a platform error during wake-lock acquisition is
    rendered nowhere and escapes the handler as an unhandled promise
    rejection. -/
theorem claim_C2_errors_caught (s : GatedSensor) (h : Host) (e : String)
    (st : SensorUI) :
    (gatedSensorPresent s h = true → h.permissionsPresent = true →
      firstNotGranted h (gatedSensorPerms s) = none →
      gatedSensorConstruct s h = Except.error e →
      (runGatedSensor s h).messageContent = sensorConstructErrorLabel s ++ e
      ∧ (runGatedSensor s h).uncaught = [])
    ∧ (runGatedSensor s h).uncaught = []
    ∧ (st.startDisabled = false →
        (sensorStep s (SensorEvent.clickStart (Except.error e)) st).messageContent =
          "It was not possible to start the sensor: " ++ e
        ∧ (sensorStep s (SensorEvent.clickStart (Except.error e)) st).uncaught =
          st.uncaught)
    ∧ (st.stopDisabled = false →
        (sensorStep s (SensorEvent.clickStop (Except.error e)) st).messageContent =
          "It was not possible to stop the sensor: " ++ e
        ∧ (sensorStep s (SensorEvent.clickStop (Except.error e)) st).uncaught =
          st.uncaught)
    ∧ (h.wakeLockPresent = true → h.wakeLockRequest = Except.error e →
        (handleScreenWakeLockAPI h).uncaught = [e]
        ∧ (handleScreenWakeLockAPI h).outputContent = ""
        ∧ (handleScreenWakeLockAPI h).messageContent = "") := by
  refine ⟨?_, ?_, ?_, ?_, ?_⟩
  · intro hp hq hfirst hcon
    cases s <;>
    cases h1 : h.permission PermName.accelerometer <;>
    cases h2 : h.permission PermName.gyroscope <;>
    cases h3 : h.permission PermName.magnetometer <;>
    cases h4 : h.permission PermName.ambientLightSensor <;>
      simp_all [runGatedSensor, gatedSensorPresent, gatedSensorPerms,
        gatedSensorConstruct, sensorConstructErrorLabel, firstNotGranted,
        absoluteOrientationPermissionOrder, relativeOrientationPermissionOrder,
        handleAccelerometer, handleLinearAccelerationSensor, handleGyroscope,
        handleGravitySensor, handleMagnetometer, handleAmbientLightSensor,
        handleAbsoluteOrientationSensor, handleRelativeOrientationSensor]
  · cases s <;>
      simp only [runGatedSensor, handleAccelerometer,
        handleLinearAccelerationSensor, handleGyroscope, handleGravitySensor,
        handleMagnetometer, handleAmbientLightSensor,
        handleAbsoluteOrientationSensor, handleRelativeOrientationSensor] <;>
      (repeat' split) <;> rfl
  · intro ht
    cases s <;> simp [sensorStep, ht]
  · intro ht
    cases s <;> simp [sensorStep, ht]
  · intro h1 h2
    simp [handleScreenWakeLockAPI, h1, h2]

/-- Witness for claim C2: a concrete construction failure (accelerometer), a
    start failure and a stop failure (magnetometer), and the uncaught
    wake-lock rejection, each behaving as stated. -/
theorem claim_C2_errors_caught_witness :
    (handleAccelerometer accelConstructFailHost).messageContent =
      "Accelerometer error: SecurityError"
    ∧ (handleAccelerometer accelConstructFailHost).uncaught = []
    ∧ (sensorStep GatedSensor.magnet
        (SensorEvent.clickStart (Except.error "NotReadableError"))
        sensorUIInit).messageContent =
      "It was not possible to start the sensor: NotReadableError"
    ∧ (sensorStep GatedSensor.magnet
        (SensorEvent.clickStop (Except.error "InvalidStateError"))
        (sensorRun GatedSensor.magnet
          [SensorEvent.clickStart (Except.ok ())])).messageContent =
      "It was not possible to stop the sensor: InvalidStateError"
    ∧ (handleScreenWakeLockAPI wakeLockFailHost).uncaught =
      ["NotAllowedError: Wake Lock permission request denied"] := by
  have H1 := (claim_C2_errors_caught GatedSensor.accel accelConstructFailHost
    "SecurityError" sensorUIInit).1 rfl rfl (by decide) rfl
  have Hstart := (claim_C2_errors_caught GatedSensor.magnet grantedHost
    "NotReadableError" sensorUIInit).2.2.1 rfl
  have Hstop := (claim_C2_errors_caught GatedSensor.magnet grantedHost
    "InvalidStateError"
    (sensorRun GatedSensor.magnet [SensorEvent.clickStart (Except.ok ())])).2.2.2.1
    (by decide)
  have Hwl := (claim_C2_errors_caught GatedSensor.accel wakeLockFailHost
    "NotAllowedError: Wake Lock permission request denied" sensorUIInit).2.2.2.2
    rfl rfl
  exact ⟨H1.1.trans (by decide), H1.2, Hstart.1, Hstop.1, Hwl.1⟩

/-- Claim C2 counterexample: when the wake-lock acquisition promise rejects,
    the handler renders nothing anywhere and the error escapes it uncaught —
    refuting the claim that every platform-thrown error during handle
    construction is caught locally inside its handler and converted to
    user-visible text. -/
theorem claim_C2_counterexample :
    (handleScreenWakeLockAPI wakeLockFailHost).uncaught =
      ["NotAllowedError: Wake Lock permission request denied"]
    ∧ (handleScreenWakeLockAPI wakeLockFailHost).outputContent = ""
    ∧ (handleScreenWakeLockAPI wakeLockFailHost).messageContent = ""
    ∧ (handleScreenWakeLockAPI wakeLockFailHost).controls = [] := by
  refine ⟨by decide, by decide, by decide, by decide⟩

/-- Claim C8: the service worker's fetch listener responds with exactly the
    result of forwarding the identical request to the network, it performs no
    cache operation, a network failure propagates as the failed fetch result,
    and its lifecycle listeners call `skipWaiting` at install and claim all
    clients at activation. -/
theorem claim_C8_service_worker (network : Request → FetchResult) (req : Request) :
    (swOnFetch network req).respondedWith = network req
    ∧ (swOnFetch network req).requestsForwarded = [req]
    ∧ (swOnFetch network req).cacheActions = []
    ∧ (∀ e, network req = FetchResult.failure e →
        (swOnFetch network req).respondedWith = FetchResult.failure e)
    ∧ swInstallListener = [SWLifecycleAction.skipWaiting]
    ∧ swActivateListener = [SWLifecycleAction.waitUntil SWTask.claimClients] := by
  refine ⟨rfl, rfl, rfl, ?_, rfl, rfl⟩
  intro e he
  exact he

/-- Witness for claim C8: a network failure on a concrete request is answered
    with that same failure. -/
theorem claim_C8_service_worker_witness :
    (swOnFetch (fun _ => FetchResult.failure "network unreachable")
      "/index.html").respondedWith = FetchResult.failure "network unreachable" :=
  (claim_C8_service_worker (fun _ => FetchResult.failure "network unreachable")
    "/index.html").2.2.2.1 "network unreachable" rfl

/-- Claim C9: the ambient-light `reading` listener renders
    `sensor.illuminance`, but no identifier `sensor` is in scope anywhere in
    the handler (the handle is bound to `ambientLight`), so every reading
    event fails with a ReferenceError and the light level is never written to
    the message region. -/
theorem claim_C9_ambient_reading_undefined (st : AmbientState) :
    ambientLightReadingListener st = Except.error (JsError.referenceError "sensor")
    ∧ ambientReadingScope.contains "sensor" = false
    ∧ ambientReadingScope.contains "ambientLight" = true := by
  refine ⟨?_, by decide, by decide⟩
  have hns : ambientReadingScope.contains "sensor" = false := by decide
  unfold ambientLightReadingListener
  rw [hns]
  simp

/-- Claim C10: the page-visibility listener assigns `leftTime` only on a
    hidden transition; if the first observed event after selecting the feature
    is a visible transition, the listener dereferences the undefined timestamp
    and throws, so the welcome-back message (absent from the greeting left in
    the output region) is never rendered. -/
theorem claim_C10_first_visible_throws (s : String) (now : ℚ) (st : VisState)
    (hs : s ≠ "hidden") :
    visibilitychangeListener s now visInit =
      Except.error (JsError.typeError "Cannot read properties of undefined")
    ∧ (∀ r, visibilitychangeListener s now st = Except.ok r → r.leftTime = st.leftTime)
    ∧ visibilitychangeListener "hidden" now st =
      Except.ok
        { st with
          leftTime := some now
          notificationsRequested := st.notificationsRequested + 1 }
    ∧ hasSubstr pageVisibilityGreeting "Welcome back" = false := by
  refine ⟨?_, ?_, ?_, by decide⟩
  · simp [visibilitychangeListener, hs, visInit]
  · intro r hr
    unfold visibilitychangeListener at hr
    rw [if_neg hs] at hr
    cases hlt : st.leftTime with
    | none => rw [hlt] at hr; cases hr
    | some t =>
      rw [hlt] at hr
      cases hr
      rfl
  · simp [visibilitychangeListener]

/-- Witness for claim C10: the first event being a visible transition throws
    the TypeError. -/
theorem claim_C10_first_visible_throws_witness :
    visibilitychangeListener "visible" (5000 : ℚ) visInit =
      Except.error (JsError.typeError "Cannot read properties of undefined") :=
  (claim_C10_first_visible_throws "visible" 5000 visInit (by decide)).1

/-- Claim C7: on every change of the feature selector the dispatcher first
    clears the shared output region synchronously (whatever it contained),
    then invokes exactly one handler — the one matching the selected tag — and
    invokes none for an unrecognised tag. -/
theorem claim_C7_dispatcher (tag : String) :
    (featureSelectorChange tag).head? = some (DispatchAction.setOutputText "")
    ∧ (invokedHandlers (featureSelectorChange tag)).length ≤ 1
    ∧ (∀ f, dispatchTag tag = some f →
        featureSelectorChange tag =
          [DispatchAction.setOutputText "", DispatchAction.invokeHandler f])
    ∧ (dispatchTag tag = none →
        featureSelectorChange tag = [DispatchAction.setOutputText ""])
    ∧ (tag ∉ recognizedTags → dispatchTag tag = none)
    ∧ (∀ f : Feature, dispatchTag (featureTag f) = some f) := by
  refine ⟨rfl, ?_, ?_, ?_, ?_, ?_⟩
  · cases hd : dispatchTag tag <;>
      simp [featureSelectorChange, invokedHandlers, hd]
  · intro f hf
    simp [featureSelectorChange, hf]
  · intro hf
    simp [featureSelectorChange, hf]
  · intro hnot
    cases hd : dispatchTag tag with
    | none => rfl
    | some f =>
      exfalso
      apply hnot
      unfold dispatchTag at hd
      split at hd <;> simp_all [recognizedTags]
  · intro f
    cases f <;> rfl

/-- Witness for claim C7: the "vibration" tag invokes exactly the vibration
    handler after the clear, and an unrecognised tag only clears. -/
theorem claim_C7_dispatcher_witness :
    featureSelectorChange "vibration" =
      [DispatchAction.setOutputText "",
        DispatchAction.invokeHandler Feature.vibration]
    ∧ featureSelectorChange "bogus-tag" = [DispatchAction.setOutputText ""]
    ∧ dispatchTag "bogus-tag" = none := by
  have h1 := (claim_C7_dispatcher "vibration").2.2.1 Feature.vibration rfl
  have hn := (claim_C7_dispatcher "bogus-tag").2.2.2.2.1 (by decide)
  have h2 := (claim_C7_dispatcher "bogus-tag").2.2.2.1 hn
  exact ⟨h1, h2, hn⟩

/-- Claim C6 (amended): every capability handler except the page-visibility
    handler has a fixed "not supported" string and, when its presence check
    fails, renders exactly that string and nothing else — no controls, no
    listeners, no permission queries; the page-visibility handler performs no
    presence check and renders its greeting unconditionally. -/
theorem claim_C6_not_supported (f : Feature) (h : Host) (m : String)
    (hm : notSupportedMsg f = some m) (hpres : featurePresence f h = false) :
    runFeature f h = { outputContent := m } := by
  cases f <;>
    simp_all [runFeature, featurePresence, notSupportedMsg,
      handleBatteryStatusAPI, handleNetworkInformation, handleFullscreenAPI,
      handleScreenOrientationAPI, handleVibrationAPI, handleBadgingAPI,
      handlePageVisibility, handleIdleDetectionAPI, handleScreenWakeLockAPI,
      handleGeolocationAPI, handlePermissionsAPI, handleAccelerometer,
      handleLinearAccelerationSensor, handleGyroscope, handleGravitySensor,
      handleMagnetometer, handleAmbientLightSensor,
      handleAbsoluteOrientationSensor, handleRelativeOrientationSensor]

/-- Witness for claim C6: the vibration scenario — selecting vibration on a
    host without a vibration API renders exactly the fixed message and creates
    no buttons. -/
theorem claim_C6_not_supported_witness :
    runFeature Feature.vibration noVibrationHost =
      { outputContent := "Vibration is not supported on this device." }
    ∧ (runFeature Feature.vibration noVibrationHost).controls = [] := by
  have H := claim_C6_not_supported Feature.vibration noVibrationHost
    "Vibration is not supported on this device." rfl rfl
  exact ⟨H, by rw [H]⟩

/-- Claim C6 counterexample: the page-visibility handler has no presence
    check — on a host whose visibility capability is absent it still renders
    its greeting (which is none of the fixed "not supported" strings) and
    registers its listener, so the claim fails for this handler. -/
theorem claim_C6_counterexample :
    featurePresence Feature.pageVisibility noVisibilityHost = false
    ∧ (runFeature Feature.pageVisibility noVisibilityHost).outputContent =
      pageVisibilityGreeting
    ∧ notSupportedMessages.contains pageVisibilityGreeting = false
    ∧ (runFeature Feature.pageVisibility noVisibilityHost).listenerEvents =
      ["visibilitychange"]
    ∧ notSupportedMsg Feature.pageVisibility = none := by
  refine ⟨by decide, by decide, by decide, by decide, rfl⟩

/-- Claim C1: in the absolute-orientation handler (accelerometer, gyroscope,
    magnetometer) and the relative-orientation handler (accelerometer,
    gyroscope) the permission queries are issued and awaited strictly in the
    declared order, the first non-granted permission short-circuits the
    handler rendering that permission's denial message with no constructor
    invoked, and the sensor constructor is invoked exactly when every required
    permission resolved to granted. -/
theorem claim_C1_multi_permission_order (h : Host)
    (habs : h.absoluteOrientationPresent = true)
    (hrel : h.relativeOrientationPresent = true)
    (hperm : h.permissionsPresent = true) :
    ((handleAbsoluteOrientationSensor h).permissionQueries =
        queriesIssued h absoluteOrientationPermissionOrder
      ∧ ((handleAbsoluteOrientationSensor h).constructorInvoked = true ↔
          firstNotGranted h absoluteOrientationPermissionOrder = none)
      ∧ (∀ p, firstNotGranted h absoluteOrientationPermissionOrder = some p →
          (handleAbsoluteOrientationSensor h).outputContent = sensorDenialMsg p
          ∧ (handleAbsoluteOrientationSensor h).constructorInvoked = false
          ∧ (handleAbsoluteOrientationSensor h).handleConstructed = false))
    ∧ ((handleRelativeOrientationSensor h).permissionQueries =
        queriesIssued h relativeOrientationPermissionOrder
      ∧ ((handleRelativeOrientationSensor h).constructorInvoked = true ↔
          firstNotGranted h relativeOrientationPermissionOrder = none)
      ∧ (∀ p, firstNotGranted h relativeOrientationPermissionOrder = some p →
          (handleRelativeOrientationSensor h).outputContent = sensorDenialMsg p
          ∧ (handleRelativeOrientationSensor h).constructorInvoked = false
          ∧ (handleRelativeOrientationSensor h).handleConstructed = false)) := by
  cases h1 : h.permission PermName.accelerometer <;>
  cases h2 : h.permission PermName.gyroscope <;>
  cases h3 : h.permission PermName.magnetometer <;>
  cases hca : h.absoluteOrientationConstruct <;>
  cases hcr : h.relativeOrientationConstruct <;>
    simp_all [handleAbsoluteOrientationSensor, handleRelativeOrientationSensor,
      queriesIssued, firstNotGranted, absoluteOrientationPermissionOrder,
      relativeOrientationPermissionOrder, sensorDenialMsg]

/-- Witness for claim C1: with accelerometer granted and gyroscope denied,
    both orientation handlers query exactly accelerometer then gyroscope,
    render the gyroscope denial message, and invoke no constructor. -/
theorem claim_C1_multi_permission_order_witness :
    (handleAbsoluteOrientationSensor gyroDeniedHost).permissionQueries =
      [PermName.accelerometer, PermName.gyroscope]
    ∧ (handleAbsoluteOrientationSensor gyroDeniedHost).outputContent =
      "You are not autorized to use the gyroscope sensor."
    ∧ (handleAbsoluteOrientationSensor gyroDeniedHost).constructorInvoked = false
    ∧ (handleRelativeOrientationSensor gyroDeniedHost).outputContent =
      "You are not autorized to use the gyroscope sensor."
    ∧ (handleRelativeOrientationSensor gyroDeniedHost).constructorInvoked = false := by
  have H := claim_C1_multi_permission_order gyroDeniedHost rfl rfl rfl
  have habs := H.1.2.2 PermName.gyroscope (by decide)
  have hrel := H.2.2.2 PermName.gyroscope (by decide)
  refine ⟨?_, ?_, habs.2.1, ?_, hrel.2.1⟩
  · rw [H.1.1]
    decide
  · rw [habs.1]
    decide
  · rw [hrel.1]
    decide

/-- Claim C4: for every permission-gated handler, a required permission query
    resolving to a non-granted state makes the handler render that
    permission's denial message — which names the denied capability — and
    return without invoking any constructor or creating any control. -/
theorem claim_C4_denied_no_handle (s : GatedSensor) (h : Host) (p : PermName)
    (hpres : gatedSensorPresent s h = true) (hperm : h.permissionsPresent = true)
    (hfirst : firstNotGranted h (gatedSensorPerms s) = some p) :
    (runGatedSensor s h).outputContent = sensorDenialMsg p
    ∧ hasSubstr (sensorDenialMsg p) (permCapabilityName p) = true
    ∧ (runGatedSensor s h).constructorInvoked = false
    ∧ (runGatedSensor s h).handleConstructed = false
    ∧ (runGatedSensor s h).controls = [] := by
  have hname : hasSubstr (sensorDenialMsg p) (permCapabilityName p) = true := by
    cases p <;> decide
  have key : (runGatedSensor s h).outputContent = sensorDenialMsg p
      ∧ (runGatedSensor s h).constructorInvoked = false
      ∧ (runGatedSensor s h).handleConstructed = false
      ∧ (runGatedSensor s h).controls = [] := by
    cases s <;>
    cases h1 : h.permission PermName.accelerometer <;>
    cases h2 : h.permission PermName.gyroscope <;>
    cases h3 : h.permission PermName.magnetometer <;>
    cases h4 : h.permission PermName.ambientLightSensor <;>
      simp_all [runGatedSensor, gatedSensorPresent, gatedSensorPerms,
        absoluteOrientationPermissionOrder, relativeOrientationPermissionOrder,
        firstNotGranted, sensorDenialMsg, handleAccelerometer,
        handleLinearAccelerationSensor, handleGyroscope, handleGravitySensor,
        handleMagnetometer, handleAmbientLightSensor,
        handleAbsoluteOrientationSensor, handleRelativeOrientationSensor] <;>
      (subst hfirst; rfl)
  exact ⟨key.1, hname, key.2.1, key.2.2.1, key.2.2.2⟩

/-- Witness for claim C4: the accelerometer handler with the accelerometer
    permission denied renders exactly the spec scenario's message and
    constructs nothing. -/
theorem claim_C4_denied_no_handle_witness :
    (handleAccelerometer accelDeniedHost).outputContent =
      "You are not autorized to use the accelerometer sensor."
    ∧ (handleAccelerometer accelDeniedHost).constructorInvoked = false
    ∧ (handleAccelerometer accelDeniedHost).controls = [] := by
  have H := claim_C4_denied_no_handle GatedSensor.accel accelDeniedHost
    PermName.accelerometer rfl rfl (by decide)
  exact ⟨H.1.trans (by decide), H.2.2.1, H.2.2.2.2⟩

end DeviceFeatures
